import Mathlib

/-!
Verification of the hlampctl IIO driver (src/files/hlampctl.c).

The driver is embedded shallowly: the I2C bus is an abstract state type `σ`
with single-byte read/write primitives (returning a signed status, negative
on error, and the successor state), and each C function becomes a Lean
function threading that state explicitly.  Machine integers are modelled by
`Int`/`Nat` with explicit masking where the C code masks.
-/

namespace Hlampctl

/-- Linux errno constant used by the driver (returned as `-EINVAL`). -/
def EINVAL : Int := 22

/-- Linux errno constant `ENODEV` (probe failure). -/
def ENODEV : Int := 19

/-- Linux errno constant `ENOMEM` (allocation failure). -/
def ENOMEM : Int := 12

/-- Linux errno constant `EOPNOTSUPP` (missing bus functionality). -/
def EOPNOTSUPP : Int := 95

/-- `enum iio_chan_info_enum`: `IIO_CHAN_INFO_RAW`. -/
def IIO_CHAN_INFO_RAW : Nat := 0

/-- `enum iio_chan_info_enum`: `IIO_CHAN_INFO_SCALE`. -/
def IIO_CHAN_INFO_SCALE : Nat := 2

/-- `enum iio_chan_info_enum`: `IIO_CHAN_INFO_SAMP_FREQ`. -/
def IIO_CHAN_INFO_SAMP_FREQ : Nat := 12

/-- IIO value format tag `IIO_VAL_INT`. -/
def IIO_VAL_INT : Int := 1

/-- IIO value format tag `IIO_VAL_INT_PLUS_NANO`. -/
def IIO_VAL_INT_PLUS_NANO : Int := 3

/-- The kernel's `sign_extend32(value, index)`: keep the low `index + 1`
bits of `value` and sign-extend with bit `index` as the sign bit. -/
def sign_extend32 (value : Nat) (index : Nat) : Int :=
  let low := value % 2 ^ (index + 1)
  if low < 2 ^ index then (low : Int) else (low : Int) - 2 ^ (index + 1)

/-- The external I2C bus: single-byte SMBus transactions over an abstract
bus state `σ`.  `readByteData s a` returns the signed status (the byte read
when nonnegative, a negative errno on failure) and the next bus state;
`writeByteData s a b` writes byte `b` at sub-address `a` and returns the
signed status and the next bus state. -/
structure Bus (σ : Type) where
  readByteData : σ → Nat → Int × σ
  writeByteData : σ → Nat → Nat → Int × σ

/-- `hlampctl_read` from the source: dispatch the channel to a sub-address
(`0 ↦ 2`, `1 ↦ 1`, `2 ↦ 3`, otherwise a synthesised `-1` with no bus
access), fail with `-EINVAL` on a negative transaction result without
touching the out-parameter, else mask channel 2 to bit 0, sign-extend
channel 0 from bit 11, and store the result.  The C out-parameter `*value`
is modelled by passing its prior contents in and returning its final
contents: the result is `(return code, *value, bus state)`. -/
def hlampctl_read {σ : Type} (bus : Bus σ) (s : σ) (channel : Nat)
    (value : Int) : Int × Int × σ :=
  let rs : Int × σ :=
    match channel with
    | 0 => bus.readByteData s 2
    | 1 => bus.readByteData s 1
    | 2 => bus.readByteData s 3
    | _ => (-1, s)
  if rs.1 < 0 then
    (-EINVAL, value, rs.2)
  else
    let temp : Nat := rs.1.toNat
    let temp1 : Nat := if channel = 2 then temp % 2 else temp
    let out : Int := if channel = 0 then sign_extend32 temp1 11 else (temp1 : Int)
    (0, out, rs.2)

/-- `hlampctl_write` from the source: only channel 2 is writable; the value
is coerced to the byte `1` when `value > 0` and `0` otherwise and written at
sub-address 3, returning the bus status; any other channel returns
`-EINVAL` without touching the bus. -/
def hlampctl_write {σ : Type} (bus : Bus σ) (s : σ) (channel : Nat)
    (value : Int) : Int × σ :=
  if channel = 2 then
    bus.writeByteData s 3 (if 0 < value then 1 else 0)
  else
    (-EINVAL, s)

/-- A bus whose every byte read yields the fixed status `r` and whose
writes succeed without effect; used to instantiate theorems at concrete
inputs. -/
def constBus (r : Int) : Bus Unit :=
  ⟨fun s _ => (r, s), fun s _ _ => (0, s)⟩

/-- A bus backed by a register file: the state maps each sub-address to the
byte stored there; a read returns the stored byte (always succeeding) and a
write stores the low 8 bits of the written value and succeeds. -/
def regBus : Bus (Nat → Nat) :=
  ⟨fun s a => ((s a : Int), s),
   fun s a b => (0, fun x => if x = a then b % 256 else s x)⟩

/-- `hlampctl_read_raw` from the source: the IIO `read_raw` callback.
Dispatch on the info mask: `RAW` delegates to `hlampctl_read` (collapsing
any failure to `-EINVAL`) and returns format `IIO_VAL_INT`; `SCALE` on
channel 0 sets `val1 = 0`, `val2 = 3300000000 / 256` (nV per LSB) with
format `IIO_VAL_INT_PLUS_NANO`, and on any other channel sets `val1 = 1`
with format `IIO_VAL_INT`, all without touching the bus; `SAMP_FREQ` sets
`val1 = 10` with format `IIO_VAL_INT`; any other mask is `-EINVAL`.  The
result is `(return code, *val1, *val2, bus state)`. -/
def hlampctl_read_raw {σ : Type} (bus : Bus σ) (s : σ) (channel : Nat)
    (val1 val2 : Int) (mask : Nat) : Int × Int × Int × σ :=
  if mask = IIO_CHAN_INFO_RAW then
    let r := hlampctl_read bus s channel val1
    if r.1 < 0 then (-EINVAL, r.2.1, val2, r.2.2)
    else (IIO_VAL_INT, r.2.1, val2, r.2.2)
  else if mask = IIO_CHAN_INFO_SCALE then
    if channel = 0 then
      (IIO_VAL_INT_PLUS_NANO, 0, (3300000000 : Int) / 256, s)
    else
      (IIO_VAL_INT, 1, val2, s)
  else if mask = IIO_CHAN_INFO_SAMP_FREQ then
    (IIO_VAL_INT, 10, val2, s)
  else
    (-EINVAL, val1, val2, s)

/-- `hlampctl_write_raw` from the source: the IIO `write_raw` callback.
Only the `RAW` mask on channel 2 delegates to `hlampctl_write` (mapping a
negative status to `-EINVAL` and a nonnegative one to 0); `RAW` on any
other channel, `SCALE`, `SAMP_FREQ` and every other mask return `-EINVAL`
without touching the bus.  The result is `(return code, bus state)`. -/
def hlampctl_write_raw {σ : Type} (bus : Bus σ) (s : σ) (channel : Nat)
    (val1 val2 : Int) (mask : Nat) : Int × σ :=
  if mask = IIO_CHAN_INFO_RAW then
    if channel = 2 then
      let w := hlampctl_write bus s channel val1
      if w.1 < 0 then (-EINVAL, w.2) else (0, w.2)
    else (-EINVAL, s)
  else if mask = IIO_CHAN_INFO_SCALE then (-EINVAL, s)
  else if mask = IIO_CHAN_INFO_SAMP_FREQ then (-EINVAL, s)
  else (-EINVAL, s)

/-- Outcome of the external collaborators `hlampctl_probe` consumes:
whether `i2c_check_functionality(adapter, I2C_FUNC_I2C)` holds, whether
`devm_iio_device_alloc` succeeds, the return of the one-byte
`i2c_master_recv` probe transaction, and the return of
`devm_iio_device_register`. -/
structure ProbeEnv where
  i2c_func_i2c : Bool
  alloc_ok : Bool
  master_recv_ret : Int
  register_ret : Int

/-- Result of `hlampctl_probe`: success carrying the number of channels
declared to the IIO core, or a negative errno. -/
inductive ProbeResult where
  | ok : Nat → ProbeResult
  | err : Int → ProbeResult
  deriving DecidableEq

/-- `hlampctl_probe` from the source: fail with `-EOPNOTSUPP` when the
adapter lacks `I2C_FUNC_I2C`, with `-ENOMEM` when the device allocation
fails, with `-ENODEV` when the one-byte probe read returns a negative
status, propagate a negative `devm_iio_device_register` status, and
otherwise succeed having set `num_channels = 3`. -/
def hlampctl_probe (env : ProbeEnv) : ProbeResult :=
  if ¬ env.i2c_func_i2c then ProbeResult.err (-EOPNOTSUPP)
  else if ¬ env.alloc_ok then ProbeResult.err (-ENOMEM)
  else if env.master_recv_ret < 0 then ProbeResult.err (-ENODEV)
  else if env.register_ret < 0 then ProbeResult.err env.register_ret
  else ProbeResult.ok 3

end Hlampctl

namespace Hlampctl

/-- Evaluation lemma shared by the channel-0 read theorems: a bus status
`r` with `0 ≤ r ≤ 4095` makes `hlampctl_read` on channel 0 succeed with
the 12-bit sign extension of `r`. -/
theorem read_chan0_eval {σ : Type} (bus : Bus σ) (s s' : σ)
    (r v0 : Int) (hread : bus.readByteData s 2 = (r, s'))
    (h0 : 0 ≤ r) (h1 : r ≤ 4095) :
    hlampctl_read bus s 0 v0 = (0, (if 2048 ≤ r then r - 4096 else r), s') := by
  simp only [hlampctl_read, hread, sign_extend32]
  have hr : ¬ r < 0 := by omega
  have htn : (r.toNat : Int) = r := Int.toNat_of_nonneg h0
  simp only [hr, if_false, if_true, reduceIte,
    if_neg (by decide : ¬ (0 : Nat) = 2)]
  rw [Prod.mk.injEq, Prod.mk.injEq]
  refine ⟨rfl, ?_, rfl⟩
  split_ifs with hlow hhigh hhigh <;> omega

/-- Claim C1: for a successful raw read on channel 0, a bus status
`r` with `0 ≤ r ≤ 4095` makes `hlampctl_read` succeed with the signed
value obtained by sign-extending the low 12 bits of `r` with bit 11 as
sign bit: `r - 4096` when `r ≥ 2048`, `r` itself otherwise. -/
theorem read_chan0_sign_extend12 {σ : Type} (bus : Bus σ) (s s' : σ)
    (r v0 : Int) (hread : bus.readByteData s 2 = (r, s'))
    (h0 : 0 ≤ r) (h1 : r ≤ 4095) :
    hlampctl_read bus s 0 v0 = (0, (if 2048 ≤ r then r - 4096 else r), s') :=
  read_chan0_eval bus s s' r v0 hread h0 h1

/-- Witness for C1 at the concrete bus status 3000. -/
theorem read_chan0_sign_extend12_witness :
    hlampctl_read (constBus 3000) () 0 7
      = (0, (if (2048 : Int) ≤ 3000 then 3000 - 4096 else 3000), ()) :=
  read_chan0_sign_extend12 (constBus 3000) () () 3000 7 rfl (by decide)
    (by decide)

/-- Claim C2: on a register-file bus, writing value `v` on channel 2
succeeds, stores exactly the byte `1` at sub-address 3 when `v > 0` and
exactly `0` otherwise, and a subsequent read on channel 2 returns that
same bit. -/
theorem write_then_read_chan2 (s : Nat → Nat) (v v0 : Int) :
    (hlampctl_write regBus s 2 v).1 = 0 ∧
    (hlampctl_write regBus s 2 v).2 3 = (if 0 < v then 1 else 0) ∧
    hlampctl_read regBus (hlampctl_write regBus s 2 v).2 2 v0
      = (0, (if 0 < v then 1 else 0), (hlampctl_write regBus s 2 v).2) := by
  by_cases hv : 0 < v <;>
    simp [hlampctl_write, hlampctl_read, regBus, hv, EINVAL, sign_extend32]

/-- Claim C7: a successful read on channel 2 masks the byte `b` delivered
by the bus at sub-address 3 down to its least-significant bit, so the
result is `b % 2`, which is always `0` or `1`. -/
theorem read_chan2_masks_low_bit {σ : Type} (bus : Bus σ) (s s' : σ)
    (b v0 : Int) (hread : bus.readByteData s 3 = (b, s'))
    (h0 : 0 ≤ b) (h1 : b ≤ 255) :
    hlampctl_read bus s 2 v0 = (0, b % 2, s') ∧ (b % 2 = 0 ∨ b % 2 = 1) := by
  refine ⟨?_, by omega⟩
  simp only [hlampctl_read, hread, sign_extend32]
  have hb : ¬ b < 0 := by omega
  simp only [hb, if_false, if_true, reduceIte,
    if_neg (by decide : ¬ (2 : Nat) = 0)]
  rw [Prod.mk.injEq, Prod.mk.injEq]
  exact ⟨rfl, by omega, rfl⟩

/-- Witness for C7 at the concrete bus byte 0xAB = 171. -/
theorem read_chan2_masks_low_bit_witness :
    (hlampctl_read (constBus 171) () 2 9 = (0, 171 % 2, ()) ∧
      ((171 : Int) % 2 = 0 ∨ (171 : Int) % 2 = 1)) :=
  read_chan2_masks_low_bit (constBus 171) () () 171 9 rfl (by decide)
    (by decide)

/-- Claim C8: `hlampctl_read` is atomic in its out-parameter: it either
returns 0 (success), or it returns `-EINVAL` and the out-parameter holds
exactly the value it held before the call. -/
theorem read_atomic_out_param {σ : Type} (bus : Bus σ) (s : σ)
    (channel : Nat) (v0 : Int) :
    (hlampctl_read bus s channel v0).1 = 0 ∨
    ((hlampctl_read bus s channel v0).1 = -EINVAL ∧
      (hlampctl_read bus s channel v0).2.1 = v0) := by
  unfold hlampctl_read
  rcases channel with _ | _ | _ | n
  · rcases h : bus.readByteData s 2 with ⟨rv, s1⟩
    by_cases hrv : rv < 0 <;> simp [h, hrv]
  · rcases h : bus.readByteData s 1 with ⟨rv, s1⟩
    by_cases hrv : rv < 0 <;> simp [h, hrv]
  · rcases h : bus.readByteData s 3 with ⟨rv, s1⟩
    by_cases hrv : rv < 0 <;> simp [h, hrv]
  · exact Or.inr ⟨rfl, rfl⟩

/-- Claim C9: when the bus delivers a single byte `b` (0–255) on the
channel-0 read, the 12-bit sign extension is the identity: the read
succeeds and returns exactly `b`, hence never a negative value. -/
theorem read_chan0_byte_identity {σ : Type} (bus : Bus σ) (s s' : σ)
    (b v0 : Int) (hread : bus.readByteData s 2 = (b, s'))
    (h0 : 0 ≤ b) (h1 : b ≤ 255) :
    hlampctl_read bus s 0 v0 = (0, b, s') := by
  have := read_chan0_eval bus s s' b v0 hread h0 (by omega)
  rwa [if_neg (by omega : ¬ (2048 : Int) ≤ b)] at this

/-- Witness for C9 at the concrete bus byte 200. -/
theorem read_chan0_byte_identity_witness :
    hlampctl_read (constBus 200) () 0 5 = (0, 200, ()) :=
  read_chan0_byte_identity (constBus 200) () () 200 5 rfl (by decide)
    (by decide)

/-- Claim C10: an invalid channel is rejected locally: for every bus and
every bus state, a read on a channel outside {0,1,2} returns `-EINVAL`
with the out-parameter and the bus state unchanged (so no transaction is
issued), and a write on any channel other than 2 returns `-EINVAL` with
the bus state unchanged. -/
theorem invalid_channel_rejected_locally {σ : Type} (bus : Bus σ) (s : σ)
    (channel c : Nat) (v0 v : Int)
    (h0 : channel ≠ 0) (h1 : channel ≠ 1) (h2 : channel ≠ 2)
    (hc : c ≠ 2) :
    hlampctl_read bus s channel v0 = (-EINVAL, v0, s) ∧
    hlampctl_write bus s c v = (-EINVAL, s) := by
  constructor
  · unfold hlampctl_read
    rcases channel with _ | _ | _ | n <;> simp_all
  · unfold hlampctl_write
    simp [hc]

/-- Witness for C10 at the concrete rejected channels 7 (read) and
1 (write). -/
theorem invalid_channel_rejected_locally_witness :
    (hlampctl_read (constBus 0) () 7 4 = (-EINVAL, 4, ()) ∧
      hlampctl_write (constBus 0) () 1 1 = (-EINVAL, ())) :=
  invalid_channel_rejected_locally (constBus 0) () 7 1 4 1 (by decide)
    (by decide) (by decide) (by decide)

/-- Claim C3: the `SCALE` query on channel 0 returns, for every bus and
with the bus state untouched, the fixed-point pair `(0, 12890625)` in
integer-plus-nano format, where `12890625` is exactly the truncated
integer division `3300000000 / 256`; on channels 1 and 2 it returns the
plain integer 1. -/
theorem read_raw_scale_constants {σ : Type} (bus : Bus σ) (s : σ)
    (v1 v2 : Int) :
    hlampctl_read_raw bus s 0 v1 v2 IIO_CHAN_INFO_SCALE
      = (IIO_VAL_INT_PLUS_NANO, 0, 12890625, s) ∧
    (12890625 : Int) = 3300000000 / 256 ∧
    hlampctl_read_raw bus s 1 v1 v2 IIO_CHAN_INFO_SCALE
      = (IIO_VAL_INT, 1, v2, s) ∧
    hlampctl_read_raw bus s 2 v1 v2 IIO_CHAN_INFO_SCALE
      = (IIO_VAL_INT, 1, v2, s) := by
  refine ⟨?_, by decide, ?_, ?_⟩ <;>
    simp [hlampctl_read_raw, IIO_CHAN_INFO_SCALE, IIO_CHAN_INFO_RAW,
      IIO_CHAN_INFO_SAMP_FREQ, IIO_VAL_INT, IIO_VAL_INT_PLUS_NANO]

/-- Claim C4: when the device allocation and the IIO registration (the
out-of-scope host collaborators) succeed, probe fails with `-EOPNOTSUPP`
when the adapter lacks the required I2C functionality, fails with
`-ENODEV` when the one-byte probe read returns an error, and otherwise
succeeds having registered exactly 3 channels. -/
theorem probe_outcomes (env : ProbeEnv) (halloc : env.alloc_ok = true)
    (hreg : 0 ≤ env.register_ret) :
    (env.i2c_func_i2c = false →
      hlampctl_probe env = ProbeResult.err (-EOPNOTSUPP)) ∧
    (env.i2c_func_i2c = true → env.master_recv_ret < 0 →
      hlampctl_probe env = ProbeResult.err (-ENODEV)) ∧
    (env.i2c_func_i2c = true → 0 ≤ env.master_recv_ret →
      hlampctl_probe env = ProbeResult.ok 3) := by
  unfold hlampctl_probe
  refine ⟨fun h => ?_, fun h h2 => ?_, fun h h2 => ?_⟩
  · simp [h]
  · simp [h, halloc, h2]
  · simp [h, halloc, if_neg (by omega : ¬ env.master_recv_ret < 0),
      if_neg (by omega : ¬ env.register_ret < 0)]

/-- Witness for C4: a fully functional environment probes successfully
with 3 channels. -/
theorem probe_outcomes_witness :
    hlampctl_probe ⟨true, true, 1, 0⟩ = ProbeResult.ok 3 :=
  (probe_outcomes ⟨true, true, 1, 0⟩ rfl (by decide)).2.2 rfl (by decide)

/-- Claim C5: `hlampctl_write_raw` fails with `-EINVAL`, bus untouched,
for every (channel, mask) combination other than channel 2 with the `RAW`
mask — in particular for `RAW` on channels 0 and 1 and for `SCALE` and
`SAMP_FREQ` on every channel — and on channel 2 with `RAW` it delegates
to `hlampctl_write`, mapping a negative status to `-EINVAL` and success
to 0. -/
theorem write_raw_only_chan2_raw {σ : Type} (bus : Bus σ) (s : σ)
    (channel : Nat) (v1 v2 : Int) (mask : Nat) :
    (¬ (channel = 2 ∧ mask = IIO_CHAN_INFO_RAW) →
      hlampctl_write_raw bus s channel v1 v2 mask = (-EINVAL, s)) ∧
    (channel = 2 → mask = IIO_CHAN_INFO_RAW →
      hlampctl_write_raw bus s channel v1 v2 mask =
        ((if (hlampctl_write bus s 2 v1).1 < 0 then -EINVAL else 0),
          (hlampctl_write bus s 2 v1).2)) := by
  constructor
  · intro h
    unfold hlampctl_write_raw
    by_cases hm : mask = IIO_CHAN_INFO_RAW
    · have hch : ¬ channel = 2 := fun hc => h ⟨hc, hm⟩
      simp [hm, hch]
    · simp only [hm, if_false]
      split_ifs <;> rfl
  · intro hc hm
    subst hc
    subst hm
    unfold hlampctl_write_raw
    simp only [if_pos rfl]
    by_cases hw : (hlampctl_write bus s 2 v1).1 < 0 <;> simp [hw]

/-- Witness for C5: `RAW` on channel 0 is rejected. -/
theorem write_raw_only_chan2_raw_witness :
    hlampctl_write_raw (constBus 0) () 0 5 0 IIO_CHAN_INFO_RAW
      = (-EINVAL, ()) :=
  (write_raw_only_chan2_raw (constBus 0) () 0 5 0 IIO_CHAN_INFO_RAW).1
    (by decide)

/-- Claim C6: the `SAMP_FREQ` query returns the plain integer constant 10
for every channel, every bus and every bus state, with the bus state
untouched. -/
theorem read_raw_samp_freq_const {σ : Type} (bus : Bus σ) (s : σ)
    (channel : Nat) (v1 v2 : Int) :
    hlampctl_read_raw bus s channel v1 v2 IIO_CHAN_INFO_SAMP_FREQ
      = (IIO_VAL_INT, 10, v2, s) := by
  simp [hlampctl_read_raw, IIO_CHAN_INFO_SAMP_FREQ, IIO_CHAN_INFO_RAW,
    IIO_CHAN_INFO_SCALE]

end Hlampctl
